import Mathlib

/-!
Verification of the krr_scan request handler of kube-greenops-mcp
(`internal/server/server.go`).

The handler `handleScanTyped` translates an inbound MCP tool-call request
(`KRRScanArguments`) into a `krr.ScanOptions` value, selects an executor
(the server's default one or a per-request override), runs the scan under a
deadline, and renders the outcome.  The `krr` and `config` packages are not
part of the sources at hand; their data types are modelled from the spec
(see the doc comments below).  The executor's subprocess behaviour and JSON
marshalling are external effects and enter the development as function
parameters (`scan`, `marshal`) of the handler.
-/

namespace GreenOps

/-- Modelled from the spec: the `krr` package's output-format enum
(`table | yaml | json`, §3). -/
inductive OutputFormat where
  | table
  | yaml
  | json
deriving DecidableEq

/-- `krr.OutputTable` -/
def OutputTable : OutputFormat := OutputFormat.table

/-- `krr.OutputYAML` -/
def OutputYAML : OutputFormat := OutputFormat.yaml

/-- `krr.OutputJSON` -/
def OutputJSON : OutputFormat := OutputFormat.json

/-- Modelled from the spec: `krr.ScanOptions` (§3) — the resolved set of
parameters for one invocation.  Field defaults are the Go zero values. -/
structure ScanOptions where
  Namespace : String := ""
  Context : String := ""
  ClusterName : String := ""
  Strategy : String := ""
  CPUMin : String := ""
  CPUMax : String := ""
  MemoryMin : String := ""
  MemoryMax : String := ""
  Output : OutputFormat := OutputFormat.table
  RecommendOnly : Bool := false
  NoColor : Bool := false
  Verbose : Bool := false
deriving DecidableEq

/-- Modelled from the spec: `krr.ScanResult` (§3) — raw captured output plus
the output encoding recorded by the executor (§4.2 step 5). -/
structure ScanResult where
  RawOutput : String := ""
  Output : OutputFormat := OutputFormat.table
deriving DecidableEq

/-- Modelled from the spec: a `krr` Executor is "bound at construction to an
executable path and a default timeout" (§3).  Durations are in abstract
time units (Nat). -/
structure Executor where
  binaryPath : String
  timeout : Nat
deriving DecidableEq

/-- Modelled from the spec: `krr.NewCLIExecutor(path, timeout)` binds the two
fields of an Executor. -/
def NewCLIExecutor (path : String) (timeout : Nat) : Executor :=
  ⟨path, timeout⟩

/-- Modelled from the spec: the process-wide configuration (§6), read once at
startup and immutable thereafter.  Only the fields read by `server.go`
appear. -/
structure Config where
  KRRPath : String := ""
  DefaultTimeout : Nat := 0
  DefaultNamespace : String := ""
  DefaultStrategy : String := ""
  DefaultNoColor : Bool := false
  ServerName : String := ""
  ServerVersion : String := ""
deriving DecidableEq

/-- The `MCPServer` struct of `server.go`, restricted to the fields the scan
handler reads (`executor`, `config`); the embedded protocol/HTTP server
handles are external collaborators. -/
structure MCPServer where
  executor : Executor
  config : Config
deriving DecidableEq

/-- `KRRScanArguments` of `server.go`: the inbound tool-call arguments, every
field optional (a Go pointer, `nil` = unset). -/
structure KRRScanArguments where
  Namespace : Option String := none
  Context : Option String := none
  ClusterName : Option String := none
  Strategy : Option String := none
  CPUMin : Option String := none
  CPUMax : Option String := none
  MemoryMin : Option String := none
  MemoryMax : Option String := none
  OutputFormat : Option String := none
  RecommendOnly : Option Bool := none
  Verbose : Option Bool := none
  KRRPath : Option String := none
deriving DecidableEq

/-- `KRRScanOutput` of `server.go`. -/
structure KRRScanOutput where
  Result : String := ""
deriving DecidableEq

/-- `mcp.TextContent`: a single text payload. -/
structure TextContent where
  Text : String
deriving DecidableEq

/-- `mcp.CallToolResult`, restricted to the fields `server.go` sets. -/
structure CallToolResult where
  Content : List TextContent
  IsError : Bool
deriving DecidableEq

/-- The triple returned by `handleScanTyped`:
`(*mcp.CallToolResult, KRRScanOutput, error)`.  A Go error is modelled by its
message (`Option String`, `none` = nil). -/
structure HandlerRet where
  result : Option CallToolResult
  output : KRRScanOutput
  err : Option String
deriving DecidableEq

/-- A Go `context.Context`, reduced to the one observable the handler uses:
an optional absolute deadline (abstract time units). -/
structure Ctx where
  deadline : Option Nat
deriving DecidableEq

/-- Go's `context.WithTimeout(ctx, d)` at current time `now`: the derived
context's deadline is `now + d`, capped by an already-present parent
deadline. -/
def withTimeout (c : Ctx) (now d : Nat) : Ctx :=
  match c.deadline with
  | none => ⟨some (now + d)⟩
  | some t => ⟨some (Nat.min t (now + d))⟩

/-- Lines 96–100 of `server.go`: impose the configured default timeout only
when the inbound context carries no deadline. -/
def resolveCtx (now defaultTimeout : Nat) (ctx : Ctx) : Ctx :=
  if ctx.deadline.isSome then ctx else withTimeout ctx now defaultTimeout

/-- Whitespace as recognised by Go's `unicode.IsSpace` on the ASCII/Latin-1
range (`strings.TrimSpace` cuts these from both ends). -/
def goIsSpace (c : Char) : Bool :=
  c = ' ' || c = '\t' || c = '\n' || c = '\r' ||
    c = '\x0b' || c = '\x0c' || c = '\x85' || c = '\xa0'

/-- Go's `strings.TrimSpace`: drop leading and trailing whitespace. -/
def TrimSpace (s : String) : String :=
  ⟨((s.data.dropWhile goIsSpace).reverse.dropWhile goIsSpace).reverse⟩

/-- `sub` occurs contiguously in `l`. -/
def containsSeq (sub : List Char) : List Char → Bool
  | [] => sub.isEmpty
  | c :: rest => sub.isPrefixOf (c :: rest) || containsSeq sub rest

/-- Go's `strings.Contains s sub`. -/
def strContains (s sub : String) : Bool :=
  containsSeq sub.data s.data

/-- Lines 102–154 of `server.go`: build the `ScanOptions` passed to the
executor.  The struct literal forces `Output` to the table encoding; each
subsequent `if` fills one field from the request, with a configured default
only for namespace (when non-empty) and strategy; `NoColor` comes only from
the config.  The request's `OutputFormat` and `Verbose` fields are never
read. -/
def resolveOptions (cfg : Config) (arguments : KRRScanArguments) : ScanOptions where
  Output := OutputTable
  Namespace :=
    match arguments.Namespace with
    | some v => v
    | none => if cfg.DefaultNamespace ≠ "" then cfg.DefaultNamespace else ""
  Context :=
    match arguments.Context with
    | some v => v
    | none => ""
  ClusterName :=
    match arguments.ClusterName with
    | some v => v
    | none => ""
  Strategy :=
    match arguments.Strategy with
    | some v => v
    | none => cfg.DefaultStrategy
  CPUMin :=
    match arguments.CPUMin with
    | some v => v
    | none => ""
  CPUMax :=
    match arguments.CPUMax with
    | some v => v
    | none => ""
  MemoryMin :=
    match arguments.MemoryMin with
    | some v => v
    | none => ""
  MemoryMax :=
    match arguments.MemoryMax with
    | some v => v
    | none => ""
  RecommendOnly :=
    match arguments.RecommendOnly with
    | some v => v
    | none => false
  NoColor := cfg.DefaultNoColor
  Verbose := false

/-- Lines 107–110 of `server.go`: the executor for this call is the server's
stored one unless the request carries a `krr_path` whose trimmed value is
non-empty, in which case a fresh executor is built from the trimmed path and
the configured default timeout. -/
def resolveExecutor (s : MCPServer) (arguments : KRRScanArguments) : Executor :=
  match arguments.KRRPath with
  | some p =>
      if TrimSpace p ≠ "" then NewCLIExecutor (TrimSpace p) s.config.DefaultTimeout
      else s.executor
  | none => s.executor

/-- The installation hint appended on line 161 of `server.go`. -/
def installHint : String :=
  "\n\nKRR CLI is not installed or not in PATH. Please install it with:\n  pip install krr\n\nThen verify installation with:\n  krr --version"

/-- Lines 159–162 of `server.go`: the error text for an executor failure. -/
def renderErrorMsg (err : String) : String :=
  let errorMsg := "KRR scan failed: " ++ err
  if strContains err "executable file not found" then errorMsg ++ installHint
  else errorMsg

/-- Lines 163–168 of `server.go`: the error-flagged tool result. -/
def renderError (err : String) : CallToolResult :=
  { Content := [⟨renderErrorMsg err⟩], IsError := true }

/-- Lines 171–190 of `server.go`: render a successful scan.  Table and YAML
pass the raw output through behind a fixed header; otherwise the result is
marshalled to JSON (an external effect, the `marshal` parameter), whose
failure is itself an error-flagged tool result. -/
def renderSuccess (marshal : ScanResult → Except String String)
    (options : ScanOptions) (result : ScanResult) : HandlerRet :=
  if options.Output = OutputTable ∨ options.Output = OutputYAML then
    ⟨none, ⟨"KRR Scan Results:\n\n" ++ result.RawOutput⟩, none⟩
  else
    match marshal result with
    | Except.error e =>
        ⟨some ⟨[⟨"Failed to format scan result: " ++ e⟩], true⟩, ⟨""⟩, none⟩
    | Except.ok resultJSON =>
        ⟨none, ⟨"KRR Scan Results:\n\n" ++ resultJSON⟩, none⟩

/-- `handleScanTyped` of `server.go` (lines 94–191).  External effects are
parameters: `marshal` is `json.MarshalIndent`, `scan` is
`executor.Scan(ctx, options)` returning either a scan result or a Go error
message, and `now` is the current time used by `context.WithTimeout`.  The
returned pair carries the (unchanged) server state alongside the Go return
triple. -/
def handleScanTyped (marshal : ScanResult → Except String String)
    (scan : Executor → Ctx → ScanOptions → Except String ScanResult)
    (now : Nat) (s : MCPServer) (ctx : Ctx) (arguments : KRRScanArguments) :
    MCPServer × HandlerRet :=
  let ctx := resolveCtx now s.config.DefaultTimeout ctx
  let options := resolveOptions s.config arguments
  let executor := resolveExecutor s arguments
  match scan executor ctx options with
  | Except.error err => (s, ⟨some (renderError err), ⟨""⟩, none⟩)
  | Except.ok result => (s, renderSuccess marshal options result)

/-! Sample values used by witness theorems. -/

/-- A sample configuration. -/
def cfgA : Config :=
  { KRRPath := "krr", DefaultTimeout := 30, DefaultNamespace := "prod",
    DefaultStrategy := "simple" }

/-- A configuration with an empty default namespace. -/
def cfgEmpty : Config := {}

/-- A sample server state. -/
def srvA : MCPServer := { executor := ⟨"krr", 30⟩, config := cfgA }

/-- A scan that fails with a generic message. -/
def scanBoom : Executor → Ctx → ScanOptions → Except String ScanResult :=
  fun _ _ _ => Except.error "boom"

/-- A scan that fails because the executable cannot be resolved. -/
def scanNotFound : Executor → Ctx → ScanOptions → Except String ScanResult :=
  fun _ _ _ => Except.error "exec: \"krr\": executable file not found in $PATH"

/-- A scan that succeeds with fixed raw output. -/
def scanOkA : Executor → Ctx → ScanOptions → Except String ScanResult :=
  fun _ _ _ => Except.ok ⟨"table output", OutputFormat.table⟩

/-- A marshaller that always succeeds. -/
def marshalOk : ScanResult → Except String String :=
  fun _ => Except.ok "json"

/-- A marshaller that always fails. -/
def marshalBad : ScanResult → Except String String :=
  fun _ => Except.error "cannot marshal"

/-! Theorems. -/

/-- Helper: the resolved options always carry the table encoding. -/
theorem resolveOptions_Output (cfg : Config) (args : KRRScanArguments) :
    (resolveOptions cfg args).Output = OutputTable :=
  rfl

/-- C1: the scan options the handler passes to the executor always carry the
table output encoding, and the caller-supplied output_format field is inert:
a request with output_format = "json" yields the same scan options and the
same handler response as the same request with output_format unset. -/
theorem output_format_forced_to_table
    (marshal : ScanResult → Except String String)
    (scan : Executor → Ctx → ScanOptions → Except String ScanResult)
    (now : Nat) (s : MCPServer) (ctx : Ctx) (cfg : Config)
    (args : KRRScanArguments) :
    (resolveOptions cfg args).Output = OutputTable ∧
    resolveOptions cfg { args with OutputFormat := some "json" } =
      resolveOptions cfg { args with OutputFormat := none } ∧
    handleScanTyped marshal scan now s ctx { args with OutputFormat := some "json" } =
      handleScanTyped marshal scan now s ctx { args with OutputFormat := none } :=
  ⟨rfl, rfl, rfl⟩

/-- C2 (the code at the failing input): the handler never reads the request's
verbose field, so a request with verbose set yields exactly the scan options
of the same request with verbose unset, and the resolved Verbose is always
false. -/
theorem verbose_field_ignored (cfg : Config) (args : KRRScanArguments) :
    resolveOptions cfg { args with Verbose := some true } =
      resolveOptions cfg { args with Verbose := none } ∧
    (resolveOptions cfg { args with Verbose := some true }).Verbose = false :=
  ⟨rfl, rfl⟩

/-- C3: when the inbound context carries no deadline the handler imposes one
equal to the current time plus the configured default timeout, on the
derived per-call context only; an existing deadline is left untouched. -/
theorem ctx_deadline_handling (now t : Nat) (ctx : Ctx) :
    (ctx.deadline = none → resolveCtx now t ctx = ⟨some (now + t)⟩) ∧
    (∀ d, ctx.deadline = some d → resolveCtx now t ctx = ctx) := by
  constructor
  · intro h
    simp [resolveCtx, withTimeout, h]
  · intro d h
    simp [resolveCtx, h]

/-- Witness for C3 at concrete inputs. -/
theorem ctx_deadline_handling_witness :
    resolveCtx 0 30 ⟨none⟩ = ⟨some 30⟩ ∧ resolveCtx 0 30 ⟨some 7⟩ = ⟨some 7⟩ :=
  ⟨(ctx_deadline_handling 0 30 ⟨none⟩).1 rfl,
   (ctx_deadline_handling 0 30 ⟨some 7⟩).2 7 rfl⟩

/-- C4: namespace precedence — an explicit request value wins (the default
is not substituted), else the configured default namespace when non-empty,
else the namespace stays empty (omitted). -/
theorem namespace_precedence (cfg : Config) (args : KRRScanArguments) :
    (∀ v, args.Namespace = some v → (resolveOptions cfg args).Namespace = v) ∧
    (args.Namespace = none → cfg.DefaultNamespace ≠ "" →
      (resolveOptions cfg args).Namespace = cfg.DefaultNamespace) ∧
    (args.Namespace = none → cfg.DefaultNamespace = "" →
      (resolveOptions cfg args).Namespace = "") := by
  refine ⟨?_, ?_, ?_⟩
  · intro v h
    simp [resolveOptions, h]
  · intro h hdef
    simp [resolveOptions, h, hdef]
  · intro h hdef
    simp [resolveOptions, h, hdef]

/-- Witness for C4 at concrete inputs. -/
theorem namespace_precedence_witness :
    (resolveOptions cfgA { Namespace := some "nginx" }).Namespace = "nginx" ∧
    (resolveOptions cfgA {}).Namespace = "prod" ∧
    (resolveOptions cfgEmpty {}).Namespace = "" :=
  ⟨(namespace_precedence cfgA { Namespace := some "nginx" }).1 "nginx" rfl,
   (namespace_precedence cfgA {}).2.1 rfl (by decide),
   (namespace_precedence cfgEmpty {}).2.2 rfl rfl⟩

/-- C5: whenever the executor's scan fails, the handler returns an
error-flagged call-tool result whose text carries the failure message,
together with a nil Go error. -/
theorem scan_error_is_tool_level_error
    (marshal : ScanResult → Except String String)
    (scan : Executor → Ctx → ScanOptions → Except String ScanResult)
    (now : Nat) (s : MCPServer) (ctx : Ctx) (args : KRRScanArguments)
    (e : String)
    (h : scan (resolveExecutor s args) (resolveCtx now s.config.DefaultTimeout ctx)
        (resolveOptions s.config args) = Except.error e) :
    handleScanTyped marshal scan now s ctx args =
      (s, ⟨some (renderError e), ⟨""⟩, none⟩) ∧
    (renderError e).IsError = true ∧
    ∃ tail, (renderError e).Content = [⟨"KRR scan failed: " ++ e ++ tail⟩] := by
  refine ⟨?_, rfl, ?_⟩
  · simp [handleScanTyped, h]
  · by_cases hc : strContains e "executable file not found"
    · exact ⟨installHint, by simp [renderError, renderErrorMsg, hc, String.append_assoc]⟩
    · exact ⟨"", by simp [renderError, renderErrorMsg, hc]⟩

/-- Witness for C5: a failing scan at concrete inputs. -/
theorem scan_error_is_tool_level_error_witness :
    handleScanTyped marshalOk scanBoom 0 srvA ⟨none⟩ {} =
      (srvA, ⟨some (renderError "boom"), ⟨""⟩, none⟩) :=
  (scan_error_is_tool_level_error marshalOk scanBoom 0 srvA ⟨none⟩ {} "boom" rfl).1

/-- C6: the rendered failure text is the generic message followed by the
underlying error, with the installation hint appended exactly when the error
message contains "executable file not found". -/
theorem not_found_hint_appended
    (marshal : ScanResult → Except String String)
    (scan : Executor → Ctx → ScanOptions → Except String ScanResult)
    (now : Nat) (s : MCPServer) (ctx : Ctx) (args : KRRScanArguments)
    (e : String)
    (h : scan (resolveExecutor s args) (resolveCtx now s.config.DefaultTimeout ctx)
        (resolveOptions s.config args) = Except.error e) :
    (strContains e "executable file not found" = true →
      (handleScanTyped marshal scan now s ctx args).2.result =
        some ⟨[⟨"KRR scan failed: " ++ e ++ installHint⟩], true⟩) ∧
    (strContains e "executable file not found" = false →
      (handleScanTyped marshal scan now s ctx args).2.result =
        some ⟨[⟨"KRR scan failed: " ++ e⟩], true⟩) := by
  constructor <;> intro hc <;>
    simp [handleScanTyped, h, renderError, renderErrorMsg, hc, String.append_assoc]

/-- Witness for C6: one not-found failure and one ordinary failure. -/
theorem not_found_hint_appended_witness :
    (handleScanTyped marshalOk scanNotFound 0 srvA ⟨none⟩ {}).2.result =
      some ⟨[⟨"KRR scan failed: " ++ "exec: \"krr\": executable file not found in $PATH" ++ installHint⟩], true⟩ ∧
    (handleScanTyped marshalOk scanBoom 0 srvA ⟨none⟩ {}).2.result =
      some ⟨[⟨"KRR scan failed: " ++ "boom"⟩], true⟩ :=
  ⟨(not_found_hint_appended marshalOk scanNotFound 0 srvA ⟨none⟩ {}
      "exec: \"krr\": executable file not found in $PATH" rfl).1 (by decide),
   (not_found_hint_appended marshalOk scanBoom 0 srvA ⟨none⟩ {} "boom" rfl).2 (by decide)⟩

/-- C7: a successful scan under the table or YAML encoding renders exactly
the fixed header "KRR Scan Results:\n\n" followed byte-for-byte by the raw
captured output. -/
theorem table_yaml_raw_output_verbatim
    (marshal : ScanResult → Except String String)
    (scan : Executor → Ctx → ScanOptions → Except String ScanResult)
    (now : Nat) (s : MCPServer) (ctx : Ctx) (args : KRRScanArguments)
    (options : ScanOptions) (r : ScanResult)
    (hfmt : options.Output = OutputTable ∨ options.Output = OutputYAML)
    (hscan : scan (resolveExecutor s args) (resolveCtx now s.config.DefaultTimeout ctx)
        (resolveOptions s.config args) = Except.ok r) :
    renderSuccess marshal options r =
      ⟨none, ⟨"KRR Scan Results:\n\n" ++ r.RawOutput⟩, none⟩ ∧
    (handleScanTyped marshal scan now s ctx args).2 =
      ⟨none, ⟨"KRR Scan Results:\n\n" ++ r.RawOutput⟩, none⟩ := by
  constructor
  · unfold renderSuccess
    rw [if_pos hfmt]
  · simp only [handleScanTyped]
    rw [hscan]
    simp [renderSuccess, resolveOptions_Output]

/-- Witness for C7: a successful scan at concrete inputs. -/
theorem table_yaml_raw_output_verbatim_witness :
    (handleScanTyped marshalOk scanOkA 0 srvA ⟨none⟩ {}).2 =
      ⟨none, ⟨"KRR Scan Results:\n\n" ++ "table output"⟩, none⟩ :=
  (table_yaml_raw_output_verbatim marshalOk scanOkA 0 srvA ⟨none⟩ {}
    { Output := OutputTable } ⟨"table output", OutputFormat.table⟩
    (Or.inl rfl) rfl).2

/-- C8: handling a request never changes the server's stored executor or
configuration — also when the request supplies a krr_path override, which
only selects the executor for this single call. -/
theorem handler_preserves_server
    (marshal : ScanResult → Except String String)
    (scan : Executor → Ctx → ScanOptions → Except String ScanResult)
    (now : Nat) (s : MCPServer) (ctx : Ctx) (args : KRRScanArguments) :
    (handleScanTyped marshal scan now s ctx args).1 = s := by
  cases hs : scan (resolveExecutor s args) (resolveCtx now s.config.DefaultTimeout ctx)
      (resolveOptions s.config args) <;>
    simp [handleScanTyped, hs]

/-- C9: the JSON rendering branch of the handler is unreachable — the
handler's behaviour does not depend on the marshaller at all — and every
successful scan yields a non-error result whose text is the fixed header
followed by the raw output. -/
theorem json_branch_unreachable
    (marshal marshal' : ScanResult → Except String String)
    (scan : Executor → Ctx → ScanOptions → Except String ScanResult)
    (now : Nat) (s : MCPServer) (ctx : Ctx) (args : KRRScanArguments) :
    handleScanTyped marshal scan now s ctx args =
      handleScanTyped marshal' scan now s ctx args ∧
    (∀ r, scan (resolveExecutor s args) (resolveCtx now s.config.DefaultTimeout ctx)
        (resolveOptions s.config args) = Except.ok r →
      (handleScanTyped marshal scan now s ctx args).2 =
        ⟨none, ⟨"KRR Scan Results:\n\n" ++ r.RawOutput⟩, none⟩ ∧
      (handleScanTyped marshal scan now s ctx args).2.result = none) := by
  constructor
  · cases hs : scan (resolveExecutor s args) (resolveCtx now s.config.DefaultTimeout ctx)
        (resolveOptions s.config args) with
    | error e =>
        simp only [handleScanTyped]
        rw [hs]
    | ok r =>
        simp only [handleScanTyped]
        rw [hs]
        simp [renderSuccess, resolveOptions_Output]
  · intro r hs
    have h1 : (handleScanTyped marshal scan now s ctx args).2 =
        ⟨none, ⟨"KRR Scan Results:\n\n" ++ r.RawOutput⟩, none⟩ := by
      simp only [handleScanTyped]
      rw [hs]
      simp [renderSuccess, resolveOptions_Output]
    exact ⟨h1, by rw [h1]⟩

/-- Witness for C9: a successful scan at concrete inputs, checked under two
different marshallers. -/
theorem json_branch_unreachable_witness :
    handleScanTyped marshalOk scanOkA 0 srvA ⟨none⟩ {} =
      handleScanTyped marshalBad scanOkA 0 srvA ⟨none⟩ {} ∧
    (handleScanTyped marshalOk scanOkA 0 srvA ⟨none⟩ {}).2.result = none :=
  ⟨(json_branch_unreachable marshalOk marshalBad scanOkA 0 srvA ⟨none⟩ {}).1,
   ((json_branch_unreachable marshalOk marshalBad scanOkA 0 srvA ⟨none⟩ {}).2
      ⟨"table output", OutputFormat.table⟩ rfl).2⟩

/-- Helper: trimming a string to empty is exactly "every character is
whitespace". -/
theorem trimSpace_eq_empty_iff (p : String) :
    TrimSpace p = "" ↔ ∀ c ∈ p.data, goIsSpace c = true := by
  unfold TrimSpace
  constructor
  · intro h
    have h2 : ((p.data.dropWhile goIsSpace).reverse.dropWhile goIsSpace).reverse = [] :=
      congrArg String.data h
    rw [List.reverse_eq_nil_iff, List.dropWhile_eq_nil_iff] at h2
    intro c hc
    rw [← List.takeWhile_append_dropWhile (p := goIsSpace) (l := p.data)] at hc
    rcases List.mem_append.mp hc with hc | hc
    · exact List.mem_takeWhile_imp hc
    · exact h2 c (List.mem_reverse.mpr hc)
  · intro h
    have h2 : p.data.dropWhile goIsSpace = [] :=
      List.dropWhile_eq_nil_iff.mpr h
    simp [h2]

/-- C10: krr_path handling — an absent krr_path, or one whose characters are
all whitespace, keeps the server's default executor; otherwise the trimmed
path together with the configured default timeout is bound to a fresh
executor for this call. -/
theorem krr_path_override (s : MCPServer) (args : KRRScanArguments) (p : String) :
    resolveExecutor s { args with KRRPath := none } = s.executor ∧
    (TrimSpace p = "" → resolveExecutor s { args with KRRPath := some p } = s.executor) ∧
    (TrimSpace p ≠ "" → resolveExecutor s { args with KRRPath := some p } =
      NewCLIExecutor (TrimSpace p) s.config.DefaultTimeout) ∧
    (TrimSpace p = "" ↔ ∀ c ∈ p.data, goIsSpace c = true) := by
  refine ⟨rfl, ?_, ?_, trimSpace_eq_empty_iff p⟩
  · intro h
    simp [resolveExecutor, h]
  · intro h
    simp [resolveExecutor, h]

/-- Witness for C10: a whitespace-only override and a padded real override. -/
theorem krr_path_override_witness :
    resolveExecutor srvA { ({} : KRRScanArguments) with KRRPath := some "   " } =
      srvA.executor ∧
    resolveExecutor srvA { ({} : KRRScanArguments) with KRRPath := some "  /usr/local/bin/krr " } =
      NewCLIExecutor "/usr/local/bin/krr" srvA.config.DefaultTimeout :=
  ⟨(krr_path_override srvA {} "   ").2.1 (by decide),
   (krr_path_override srvA {} "  /usr/local/bin/krr ").2.2.1 (by decide)⟩

end GreenOps
